import Mathlib

/-!
Shallow embedding of `population.py`, the vehicle-ontology population
script, together with proofs about its behaviour.

Modelling conventions:
* CSV cells are modelled as already parsed by pandas: a column that is
  absent from a row or holds a pandas null (NaN) is `none`.
* Ontology individuals are identified by their IRI fragment strings.
* Python floats are modelled by `ℚ`; a float that may be NaN is `PFloat`.
* External effects (file system, owlready2, HermiT) are modelled by an
  environment of success flags plus an event trace.
-/

namespace Population

/-- File constant `ONTOLOGY_FILENAME` from the script header. -/
def ONTOLOGY_FILENAME : String := "vehicle_ontology.rdf"

/-- File constant `OUTPUT_FILENAME`. -/
def OUTPUT_FILENAME : String := "vehicle_ontology_populated.rdf"

/-- File constant `DATA_FILENAME`. -/
def DATA_FILENAME : String := "data.csv"

/-- Directory constant `ARTIFACTS_DIR`. -/
def ARTIFACTS_DIR : String := "artifacts"

/-- Processing constant `MAX_VEHICLES`. -/
def MAX_VEHICLES : Nat := 1000

/-- Processing constant `BATCH_SIZE`. -/
def BATCH_SIZE : Nat := 100

/-- Classification threshold `PREMIUM_THRESHOLD`. -/
def PREMIUM_THRESHOLD : ℚ := -10000

/-- Classification threshold `STANDARD_THRESHOLD`. -/
def STANDARD_THRESHOLD : ℚ := -1000

/-- Mapping dictionary `FUEL_TYPE_MAP`, as an association list in the
source's insertion order (all keys are distinct). -/
def FUEL_TYPE_MAP : List (String × String) :=
  [("CNG", "CNG"),
   ("Diesel", "Diesel"),
   ("Electricity", "Electricity"),
   ("Gasoline or E85", "E85"),
   ("Premium", "Premium"),
   ("Regular", "Regular"),
   ("Midgrade", "Midgrade"),
   ("Premium Gas or Electricity", "Premium"),
   ("Premium and Electricity", "Premium"),
   ("Regular Gas and Electricity", "Regular"),
   ("Regular Gas or Electricity", "Regular")]

/-- Mapping dictionary `DRIVE_TYPE_MAP`. -/
def DRIVE_TYPE_MAP : List (String × String) :=
  [("Front-Wheel Drive", "FrontWheelDrive"),
   ("Rear-Wheel Drive", "RearWheelDrive"),
   ("All-Wheel Drive", "AllWheelDrive"),
   ("4-Wheel Drive", "FourWheelDrive"),
   ("4-Wheel or All-Wheel Drive", "FourWheelDrive"),
   ("Part-time 4-Wheel Drive", "FourWheelDrive"),
   ("2-Wheel Drive", "FrontWheelDrive")]

/-- Mapping dictionary `SIZE_CLASS_MAP`. -/
def SIZE_CLASS_MAP : List (String × String) :=
  [("Compact Cars", "CompactSize"),
   ("Subcompact Cars", "SubcompactSize"),
   ("Midsize Cars", "MidsizeSize"),
   ("Large Cars", "LargeSize"),
   ("Minicompact Cars", "MinicompactSize"),
   ("Small Pickup Trucks", "PickupSize"),
   ("Sport Utility Vehicle - 4WD", "SUVSize"),
   ("Sport Utility Vehicle - 2WD", "SUVSize"),
   ("Small Sport Utility Vehicle 4WD", "SUVSize"),
   ("Small Sport Utility Vehicle 2WD", "SUVSize"),
   ("Standard Sport Utility Vehicle 4WD", "SUVSize"),
   ("Standard Sport Utility Vehicle 2WD", "SUVSize"),
   ("Vans, Passenger Type", "VanSize")]

/-- Mapping dictionary `BODY_STYLE_MAP`. -/
def BODY_STYLE_MAP : List (String × String) :=
  [("Compact Cars", "Sedan"),
   ("Subcompact Cars", "Sedan"),
   ("Midsize Cars", "Sedan"),
   ("Large Cars", "Sedan"),
   ("Minicompact Cars", "Coupe"),
   ("Two Seaters", "Coupe"),
   ("Small Station Wagons", "Wagon"),
   ("Midsize Station Wagons", "Wagon"),
   ("Sport Utility Vehicle - 4WD", "SUV"),
   ("Sport Utility Vehicle - 2WD", "SUV"),
   ("Small Sport Utility Vehicle 4WD", "SUV"),
   ("Small Sport Utility Vehicle 2WD", "SUV"),
   ("Standard Sport Utility Vehicle 4WD", "SUV"),
   ("Standard Sport Utility Vehicle 2WD", "SUV"),
   ("Small Pickup Trucks", "Truck"),
   ("Small Pickup Trucks 2WD", "Truck"),
   ("Small Pickup Trucks 4WD", "Truck"),
   ("Standard Pickup Trucks", "Truck"),
   ("Standard Pickup Trucks 2WD", "Truck"),
   ("Standard Pickup Trucks 4WD", "Truck"),
   ("Standard Pickup Trucks/2wd", "Truck"),
   ("Vans", "Van"),
   ("Vans Passenger", "Van"),
   ("Vans, Cargo Type", "Van"),
   ("Vans, Passenger Type", "Van"),
   ("Minivan - 2WD", "Van"),
   ("Minivan - 4WD", "Van")]

/-- Mapping dictionary `BOOST_SYSTEM_MAP` (built by the script but not
consulted in the per-row loop, which uses the individuals directly). -/
def BOOST_SYSTEM_MAP : List (String × String) :=
  [("T", "Turbocharger"), ("S", "Supercharger")]

/-- List constant `ELECTRIC_FUEL_TYPES`. -/
def ELECTRIC_FUEL_TYPES : List String :=
  ["Electricity",
   "Premium Gas or Electricity",
   "Premium and Electricity",
   "Regular Gas and Electricity",
   "Regular Gas or Electricity"]

/-- The regex substitution `re.sub(r"[^a-zA-Z0-9]", "_", text)` acts on
each character: anything outside `[a-zA-Z0-9]` becomes an underscore. -/
def sanitizeChar (c : Char) : Char :=
  if c.isAlpha || c.isDigit then c else '_'

/-- Embedding of `create_valid_id`.  A falsy Python argument is modelled
by the empty string.  The `[]` branch is unreachable because a non-empty
string has a non-empty character list. -/
def create_valid_id (text : String) : String :=
  if text = "" then "Unknown"
  else
    match text.data.map sanitizeChar with
    | [] => "Unknown"
    | c :: cs =>
        if c.isAlpha then String.mk (c :: cs)
        else String.mk ('V' :: '_' :: c :: cs)

/-- A Python float that may be NaN (`pd.isna` is the NaN test). -/
inductive PFloat
  | nan
  | val (q : ℚ)

/-- Embedding of `get_market_segment`: classifies a savings value against
`PREMIUM_THRESHOLD` and `STANDARD_THRESHOLD`, with NaN mapping to the
standard segment.  The result is the name of the ontology individual the
caller fetches with `getattr`. -/
def get_market_segment (savings : PFloat) : String :=
  match savings with
  | PFloat.nan => "StandardMarket"
  | PFloat.val q =>
      if q < PREMIUM_THRESHOLD then "PremiumMarket"
      else if q < STANDARD_THRESHOLD then "StandardMarket"
      else "EconomyMarket"

lemma sanitizeChar_cases (c : Char) :
    (sanitizeChar c).isAlpha = true ∨ (sanitizeChar c).isDigit = true ∨
      sanitizeChar c = '_' := by
  unfold sanitizeChar
  by_cases h : c.isAlpha || c.isDigit
  · rcases Bool.or_eq_true _ _ |>.mp h with h' | h'
    · exact Or.inl (by simp [h, h'])
    · exact Or.inr (Or.inl (by simp [h, h']))
  · exact Or.inr (Or.inr (by simp [h]))

lemma string_mk_ne_empty (c : Char) (cs : List Char) :
    String.mk (c :: cs) ≠ "" := by
  intro h
  have : (String.mk (c :: cs)).data = ("" : String).data := by rw [h]
  simp at this

lemma create_valid_id_cons (text : String) (h : ¬ text = "") (c : Char)
    (cs : List Char) (hm : text.data.map sanitizeChar = c :: cs) :
    create_valid_id text =
      if c.isAlpha = true then String.mk (c :: cs)
      else String.mk ('V' :: '_' :: c :: cs) := by
  unfold create_valid_id
  rw [if_neg h, hm]

lemma unknown_chars :
    ∀ c ∈ ("Unknown" : String).data,
      c.isAlpha = true ∨ c.isDigit = true ∨ c = '_' := by decide

lemma map_sanitize_ne_nil (text : String) (h : ¬ text = "") :
    text.data.map sanitizeChar ≠ [] := by
  intro hnil
  rcases List.map_eq_nil_iff.mp hnil with hd
  exact h (by
    have : text.data = ("" : String).data := hd
    exact String.ext this)

/-- C8: `create_valid_id` always returns a non-empty identifier that
starts with a letter and contains only letters, digits and underscores;
the empty (falsy) input gives `"Unknown"`, and otherwise every character
outside `[a-zA-Z0-9]` is replaced by `_` and a result that does not start
with a letter is prefixed with `V_`. -/
theorem create_valid_id_spec (text : String) :
    create_valid_id text ≠ ""
      ∧ (∀ c ∈ (create_valid_id text).data,
          c.isAlpha = true ∨ c.isDigit = true ∨ c = '_')
      ∧ (∃ c cs, (create_valid_id text).data = c :: cs ∧ c.isAlpha = true)
      ∧ create_valid_id "" = "Unknown"
      ∧ (text ≠ "" →
          create_valid_id text =
            match text.data.map sanitizeChar with
            | [] => "Unknown"
            | c :: cs =>
                if c.isAlpha then String.mk (c :: cs)
                else String.mk ('V' :: '_' :: c :: cs)) := by
  refine ⟨?_, ?_, ?_, by decide, ?_⟩
  · by_cases h : text = ""
    · rw [h]; decide
    · rcases hm : text.data.map sanitizeChar with _ | ⟨c, cs⟩
      · exact absurd hm (map_sanitize_ne_nil text h)
      · rw [create_valid_id_cons text h c cs hm]
        by_cases hc : c.isAlpha = true
        · rw [if_pos hc]; exact string_mk_ne_empty c cs
        · rw [if_neg hc]; exact string_mk_ne_empty 'V' _
  · intro c hc
    by_cases h : text = ""
    · rw [h] at hc
      have hu : create_valid_id "" = "Unknown" := by decide
      rw [hu] at hc
      exact unknown_chars c hc
    · rcases hm : text.data.map sanitizeChar with _ | ⟨a, as⟩
      · exact absurd hm (map_sanitize_ne_nil text h)
      · rw [create_valid_id_cons text h a as hm] at hc
        by_cases ha : a.isAlpha = true
        · rw [if_pos ha] at hc
          have hc' : c ∈ a :: as := hc
          have : c ∈ text.data.map sanitizeChar := by rw [hm]; exact hc'
          rcases List.mem_map.mp this with ⟨d, _, rfl⟩
          exact sanitizeChar_cases d
        · rw [if_neg ha] at hc
          have hc' : c ∈ 'V' :: '_' :: a :: as := hc
          rcases List.mem_cons.mp hc' with rfl | hc2
          · exact Or.inl (by decide)
          · rcases List.mem_cons.mp hc2 with rfl | hc3
            · exact Or.inr (Or.inr rfl)
            · have : c ∈ text.data.map sanitizeChar := by rw [hm]; exact hc3
              rcases List.mem_map.mp this with ⟨d, _, rfl⟩
              exact sanitizeChar_cases d
  · by_cases h : text = ""
    · rw [h]
      exact ⟨'U', "nknown".data, by decide, by decide⟩
    · rcases hm : text.data.map sanitizeChar with _ | ⟨a, as⟩
      · exact absurd hm (map_sanitize_ne_nil text h)
      · rw [create_valid_id_cons text h a as hm]
        by_cases ha : a.isAlpha = true
        · rw [if_pos ha]; exact ⟨a, as, rfl, ha⟩
        · rw [if_neg ha]; exact ⟨'V', '_' :: a :: as, rfl, by decide⟩
  · intro h
    unfold create_valid_id
    rw [if_neg h]

/-- Witness for `create_valid_id_spec` at concrete inputs. -/
theorem create_valid_id_spec_witness :
    ('M'.isAlpha = true ∨ 'M'.isDigit = true ∨ 'M' = '_')
      ∧ create_valid_id "4-Runner" = "V_4_Runner" := by
  constructor
  · exact (create_valid_id_spec "Mercedes-Benz").2.1 'M' (by decide)
  · have h := (create_valid_id_spec "4-Runner").2.2.2.2 (by decide)
    exact h.trans (by decide)

lemma get_market_segment_val (q : ℚ) :
    get_market_segment (PFloat.val q) =
      if q < PREMIUM_THRESHOLD then "PremiumMarket"
      else if q < STANDARD_THRESHOLD then "StandardMarket"
      else "EconomyMarket" := rfl

/-- C9: `get_market_segment` is total with range
`{PremiumMarket, StandardMarket, EconomyMarket}`; NaN gives the standard
segment, savings strictly below −10000 the premium segment, savings in
`[−10000, −1000)` the standard segment, savings at or above −1000 the
economy segment, and each threshold itself falls in the higher segment. -/
theorem get_market_segment_spec :
    (∀ s : PFloat, get_market_segment s = "PremiumMarket" ∨
        get_market_segment s = "StandardMarket" ∨
        get_market_segment s = "EconomyMarket")
      ∧ get_market_segment PFloat.nan = "StandardMarket"
      ∧ (∀ q : ℚ, q < -10000 →
          get_market_segment (PFloat.val q) = "PremiumMarket")
      ∧ (∀ q : ℚ, -10000 ≤ q → q < -1000 →
          get_market_segment (PFloat.val q) = "StandardMarket")
      ∧ (∀ q : ℚ, -1000 ≤ q →
          get_market_segment (PFloat.val q) = "EconomyMarket")
      ∧ get_market_segment (PFloat.val (-10000)) = "StandardMarket"
      ∧ get_market_segment (PFloat.val (-1000)) = "EconomyMarket" := by
  refine ⟨?_, rfl, ?_, ?_, ?_, by decide, by decide⟩
  · intro s
    rcases s with _ | q
    · exact Or.inr (Or.inl rfl)
    · rw [get_market_segment_val]
      by_cases h1 : q < PREMIUM_THRESHOLD
      · rw [if_pos h1]; exact Or.inl rfl
      · rw [if_neg h1]
        by_cases h2 : q < STANDARD_THRESHOLD
        · rw [if_pos h2]; exact Or.inr (Or.inl rfl)
        · rw [if_neg h2]; exact Or.inr (Or.inr rfl)
  · intro q hq
    rw [get_market_segment_val]
    rw [if_pos (show q < PREMIUM_THRESHOLD by unfold PREMIUM_THRESHOLD; linarith)]
  · intro q hq1 hq2
    rw [get_market_segment_val]
    rw [if_neg (show ¬ q < PREMIUM_THRESHOLD by unfold PREMIUM_THRESHOLD; linarith),
      if_pos (show q < STANDARD_THRESHOLD by unfold STANDARD_THRESHOLD; linarith)]
  · intro q hq
    rw [get_market_segment_val]
    rw [if_neg (show ¬ q < PREMIUM_THRESHOLD by unfold PREMIUM_THRESHOLD; linarith),
      if_neg (show ¬ q < STANDARD_THRESHOLD by unfold STANDARD_THRESHOLD; linarith)]

/-- Witness for `get_market_segment_spec` at concrete savings values. -/
theorem get_market_segment_spec_witness :
    get_market_segment (PFloat.val (-20000)) = "PremiumMarket"
      ∧ get_market_segment (PFloat.val (-5000)) = "StandardMarket"
      ∧ get_market_segment (PFloat.val 0) = "EconomyMarket" :=
  ⟨get_market_segment_spec.2.2.1 (-20000) (by norm_num),
   get_market_segment_spec.2.2.2.1 (-5000) (by norm_num) (by norm_num),
   get_market_segment_spec.2.2.2.2.1 0 (by norm_num)⟩

/-- A CSV row after pandas parsing.  `none` models a column that is absent
from the data or holds a pandas null (the code guards every access with
`"col" in row and not pd.isna(row["col"])`, which treats both alike).
Numeric cells are modelled as already converted (the script feeds them
through `safe_numeric_conversion`, whose failure also yields no value). -/
structure Row where
  id : Option Int := none
  make : Option String := none
  model : Option String := none
  year : Option Int := none
  cylinders : Option ℚ := none
  saveSpend : Option ℚ := none
  transmission : Option String := none
  co2FuelType1 : Option ℚ := none
  engineDescriptor : Option String := none
  epaFuelEconomyScore : Option ℚ := none
  ghgScore : Option ℚ := none
  annualPetroleumConsumption : Option ℚ := none
  cityGasolineConsumption : Option ℚ := none
  cityElectricityConsumption : Option ℚ := none
  mpgData : Option String := none
  fuelType : Option String := none
  drive : Option String := none
  sizeClass : Option String := none
  tCharger : Option String := none
  sCharger : Option String := none
  electricMotor : Option String := none

/-- A row with every column absent. -/
def emptyRow : Row := {}

/-- The properties asserted on one `Vehicle` individual by the per-row
block of `populate_ontology` (lines 493-616); `none` means the property is
never assigned. -/
structure VehicleProps where
  make : Option String
  model : Option String
  year : Option Int
  cylinders : Option ℚ
  savings : Option ℚ
  transmission : Option String
  co2Emissions : Option ℚ
  engineDescriptor : Option String
  epaFuelEconomyScore : Option ℚ
  ghgScore : Option ℚ
  annualPetroleumConsumption : Option ℚ
  cityGasolineConsumption : Option ℚ
  cityElectricityConsumption : Option ℚ
  mpgData : Option String
  electricMotorSpec : Option String
  hasElectricity : Option Bool
  hasFuelType : Option String
  hasDriveType : Option String
  hasSizeClass : Option String
  hasManufacturer : Option String
  hasModelYear : Option String
  hasBodyStyle : Option String
  hasBoostSystem : Option String
  hasMarketSegment : Option String

/-- The runtime lookup dictionaries of `populate_ontology`, keyed by raw
CSV values with ontology-individual names as values. -/
structure Maps where
  fuelTypeMap : List (String × String)
  driveTypeMap : List (String × String)
  sizeClassMap : List (String × String)
  bodyStyleMap : List (String × String)
  manufacturerMap : List (String × String)
  modelYearMap : List (Int × String)

/-- Maps with no entries at all. -/
def emptyMaps : Maps :=
  { fuelTypeMap := [], driveTypeMap := [], sizeClassMap := [],
    bodyStyleMap := [], manufacturerMap := [], modelYearMap := [] }

/-- The electricity flag of lines 557-568: set when the fuel type is one
of `ELECTRIC_FUEL_TYPES` or contains `"Electricity"`, or when an
`Electric motor` cell is present. -/
def hasElecFlag (row : Row) : Bool :=
  (match row.fuelType with
    | some ft =>
        decide (ft ∈ ELECTRIC_FUEL_TYPES) ||
          decide (List.IsInfix "Electricity".data ft.data)
    | none => false) || row.electricMotor.isSome

/-- The body of the per-row `try` block (lines 493-616): the properties
asserted on the freshly created `Vehicle` individual. -/
def processRow (m : Maps) (row : Row) : VehicleProps :=
  { make := row.make
    model := row.model
    year := row.year
    cylinders := row.cylinders
    savings := row.saveSpend
    transmission := row.transmission
    co2Emissions := row.co2FuelType1
    engineDescriptor := row.engineDescriptor
    epaFuelEconomyScore := row.epaFuelEconomyScore
    ghgScore := row.ghgScore
    annualPetroleumConsumption := row.annualPetroleumConsumption
    cityGasolineConsumption := row.cityGasolineConsumption
    cityElectricityConsumption := row.cityElectricityConsumption
    mpgData := row.mpgData
    electricMotorSpec := row.electricMotor
    hasElectricity := some (hasElecFlag row)
    hasFuelType := row.fuelType.bind (fun ft => m.fuelTypeMap.lookup ft)
    hasDriveType := row.drive.bind (fun d => m.driveTypeMap.lookup d)
    hasSizeClass := row.sizeClass.bind (fun sc => m.sizeClassMap.lookup sc)
    hasManufacturer := row.make.bind (fun mk => m.manufacturerMap.lookup mk)
    hasModelYear := row.year.bind (fun y => m.modelYearMap.lookup y)
    hasBodyStyle :=
      row.sizeClass.map (fun sc => (m.bodyStyleMap.lookup sc).getD "Sedan")
    hasBoostSystem :=
      some (if row.tCharger = some "T" then "Turbocharger"
        else if row.sCharger = some "S" then "Supercharger"
        else "NaturallyAspirated")
    hasMarketSegment :=
      some (match row.saveSpend with
        | some q => get_market_segment (PFloat.val q)
        | none => "StandardMarket") }

/-- `Series.dropna().unique()`: the distinct present values of a column in
first-occurrence order. -/
def pandasUnique {α : Type} [DecidableEq α] (xs : List α) : List α :=
  xs.foldl (fun acc x => if x ∈ acc then acc else acc ++ [x]) []

/-- Manufacturer creation (lines 375-392): for each distinct truthy make,
an individual named `create_valid_id make` is created and recorded. -/
def buildManufacturerMap (makes : List String) : List (String × String) :=
  (pandasUnique makes).filterMap
    (fun mk => if mk = "" then none else some (mk, create_valid_id mk))

/-- Model-year creation (lines 394-408): for each distinct truthy year,
an individual named `Year_<int year>` is created and recorded. -/
def buildModelYearMap (years : List Int) : List (Int × String) :=
  (pandasUnique years).filterMap
    (fun y => if y = 0 then none else some (y, "Year_" ++ toString y))

/-- The maps used by the per-row loop once manufacturers and model years
have been created from the `Make` and `Year` columns. -/
def withCreatedMaps (m : Maps) (makes : List String) (years : List Int) :
    Maps :=
  { m with
    manufacturerMap := buildManufacturerMap makes
    modelYearMap := buildModelYearMap years }

lemma mem_foldl_pandasUnique {α : Type} [DecidableEq α] (xs : List α) :
    ∀ (acc : List α) (y : α),
      (y ∈ xs.foldl (fun acc x => if x ∈ acc then acc else acc ++ [x]) acc ↔
        y ∈ acc ∨ y ∈ xs) := by
  induction xs with
  | nil => intro acc y; simp
  | cons x xs ih =>
      intro acc y
      rw [List.foldl_cons]
      by_cases hx : x ∈ acc
      · rw [if_pos hx, ih]
        constructor
        · rintro (h | h)
          · exact Or.inl h
          · exact Or.inr (List.mem_cons_of_mem _ h)
        · rintro (h | h)
          · exact Or.inl h
          · rcases List.mem_cons.mp h with rfl | h
            · exact Or.inl hx
            · exact Or.inr h
      · rw [if_neg hx, ih]
        constructor
        · rintro (h | h)
          · rcases List.mem_append.mp h with h | h
            · exact Or.inl h
            · rcases List.mem_singleton.mp h with rfl
              exact Or.inr (List.mem_cons_self _ _)
          · exact Or.inr (List.mem_cons_of_mem _ h)
        · rintro (h | h)
          · exact Or.inl (List.mem_append.mpr (Or.inl h))
          · rcases List.mem_cons.mp h with rfl | h
            · exact Or.inl (List.mem_append.mpr (Or.inr (by simp)))
            · exact Or.inr h

lemma mem_pandasUnique {α : Type} [DecidableEq α] (xs : List α) (y : α) :
    y ∈ pandasUnique xs ↔ y ∈ xs := by
  unfold pandasUnique
  rw [mem_foldl_pandasUnique]
  simp

lemma lookup_filterMap_guard {α β : Type} [DecidableEq α] [BEq α]
    [LawfulBEq α] (f : α → β) (bad : α → Prop) [DecidablePred bad] :
    ∀ (l : List α) (x : α), x ∈ l → ¬ bad x →
      (l.filterMap
          (fun a => if bad a then none else some (a, f a))).lookup x =
        some (f x) := by
  intro l
  induction l with
  | nil => intro x hx _; exact absurd hx (List.not_mem_nil x)
  | cons a l ih =>
      intro x hx hg
      rw [List.filterMap_cons]
      by_cases hax : a = x
      · subst hax
        rw [if_neg hg]
        simp [List.lookup]
      · rcases List.mem_cons.mp hx with rfl | hxl
        · exact absurd rfl hax
        · by_cases hga : bad a
          · rw [if_pos hga]
            exact ih x hxl hg
          · rw [if_neg hga]
            have : (x == a) = false := beq_false_of_ne (Ne.symm hax)
            simp only [List.lookup, this]
            exact ih x hxl hg

/-- C5: a processed row whose `Fuel Type` cell is present and is a key of
the runtime fuel-type dictionary gets `hasFuelType` set to exactly the
individual the dictionary assigns to it; a present fuel type that is not a
key leaves `hasFuelType` unset.  In the base table `"Gasoline or E85"` is
assigned `E85` and `"Regular Gas and Electricity"` is assigned `Regular`. -/
theorem fuel_type_mapping_spec (m : Maps) (row : Row) :
    (∀ ft v, row.fuelType = some ft → m.fuelTypeMap.lookup ft = some v →
        (processRow m row).hasFuelType = some v)
      ∧ (∀ ft, row.fuelType = some ft → m.fuelTypeMap.lookup ft = none →
          (processRow m row).hasFuelType = none)
      ∧ FUEL_TYPE_MAP.lookup "Gasoline or E85" = some "E85"
      ∧ FUEL_TYPE_MAP.lookup "Regular Gas and Electricity" =
          some "Regular" := by
  refine ⟨?_, ?_, by decide, by decide⟩
  · intro ft v hft hv
    show row.fuelType.bind (fun a => m.fuelTypeMap.lookup a) = some v
    rw [hft]
    exact hv
  · intro ft hft hv
    show row.fuelType.bind (fun a => m.fuelTypeMap.lookup a) = none
    rw [hft]
    exact hv

/-- Concrete row whose `Fuel Type` cell holds `"Gasoline or E85"`. -/
def fuelRow : Row := { emptyRow with fuelType := some "Gasoline or E85" }

/-- Maps whose fuel-type dictionary is the base `FUEL_TYPE_MAP`. -/
def fuelMaps : Maps := { emptyMaps with fuelTypeMap := FUEL_TYPE_MAP }

/-- Witness for `fuel_type_mapping_spec` on a concrete row. -/
theorem fuel_type_mapping_spec_witness :
    (processRow fuelMaps fuelRow).hasFuelType = some "E85" :=
  (fuel_type_mapping_spec fuelMaps fuelRow).1 "Gasoline or E85" "E85" rfl
    (by decide)

/-- C6 counterexample: `0` is a distinct non-null value of the `Year`
column, yet the creation loop guards on Python truthiness (`if year and
not pd.isna(year)`), so no `ModelYear` individual `Year_0` is created and
the model-year dictionary stays empty. -/
theorem manufacturer_modelyear_counterexample :
    (0 : Int) ∈ [(0 : Int)] ∧ buildModelYearMap [0] = [] ∧
      (buildModelYearMap [0]).lookup 0 = none := by decide

/-- C6 (amended): every distinct truthy (non-null, non-empty) value of the
`Make` column yields a `Manufacturer` individual whose identifier is
`create_valid_id` of the make, and a processed row with a present mapped
make links to it via `hasManufacturer`; every distinct truthy (non-null,
nonzero) `Year` yields a `ModelYear` individual named `Year_<year>`,
linked via `hasModelYear`. -/
theorem manufacturer_modelyear_spec (makes : List String)
    (years : List Int) (m : Maps) (row : Row) :
    (∀ mk ∈ makes, mk ≠ "" →
        (buildManufacturerMap makes).lookup mk = some (create_valid_id mk))
      ∧ (∀ y ∈ years, y ≠ 0 →
          (buildModelYearMap years).lookup y =
            some ("Year_" ++ toString y))
      ∧ (∀ mk, row.make = some mk → mk ∈ makes → mk ≠ "" →
          (processRow (withCreatedMaps m makes years) row).hasManufacturer =
            some (create_valid_id mk))
      ∧ (∀ y, row.year = some y → y ∈ years → y ≠ 0 →
          (processRow (withCreatedMaps m makes years) row).hasModelYear =
            some ("Year_" ++ toString y)) := by
  have hman : ∀ mk ∈ makes, mk ≠ "" →
      (buildManufacturerMap makes).lookup mk = some (create_valid_id mk) := by
    intro mk hmk hne
    exact lookup_filterMap_guard create_valid_id (fun a => a = "")
      (pandasUnique makes) mk ((mem_pandasUnique makes mk).mpr hmk) hne
  have hyr : ∀ y ∈ years, y ≠ 0 →
      (buildModelYearMap years).lookup y = some ("Year_" ++ toString y) := by
    intro y hy hne
    exact lookup_filterMap_guard (fun y => "Year_" ++ toString y)
      (fun a => a = 0) (pandasUnique years) y
      ((mem_pandasUnique years y).mpr hy) hne
  refine ⟨hman, hyr, ?_, ?_⟩
  · intro mk hmk hmem hne
    show row.make.bind
        (fun a => (buildManufacturerMap makes).lookup a) =
      some (create_valid_id mk)
    rw [hmk]
    exact hman mk hmem hne
  · intro y hy hmem hne
    show row.year.bind
        (fun a => (buildModelYearMap years).lookup a) =
      some ("Year_" ++ toString y)
    rw [hy]
    exact hyr y hmem hne

/-- Witness for `manufacturer_modelyear_spec` at concrete columns. -/
theorem manufacturer_modelyear_spec_witness :
    (buildManufacturerMap ["Toyota"]).lookup "Toyota" =
        some (create_valid_id "Toyota")
      ∧ (buildModelYearMap [(1999 : Int)]).lookup 1999 =
          some ("Year_" ++ toString (1999 : Int)) :=
  ⟨(manufacturer_modelyear_spec ["Toyota"] [1999] emptyMaps emptyRow).1
      "Toyota" (by decide) (by decide),
   (manufacturer_modelyear_spec ["Toyota"] [1999] emptyMaps emptyRow).2.1
      1999 (by decide) (by decide)⟩

/-- C10: every row processed without error gets `hasElectricity` (a
boolean), `hasBoostSystem` and `hasMarketSegment` assigned, whatever cells
are missing: the boost system is `Turbocharger` when `T Charger` is `"T"`,
else `Supercharger` when `S Charger` is `"S"`, else `NaturallyAspirated`;
and the market segment defaults to `StandardMarket` when `You Save/Spend`
is missing. -/
theorem vehicle_defaults_spec (m : Maps) (row : Row) :
    ((processRow m row).hasElectricity).isSome = true
      ∧ ((processRow m row).hasBoostSystem).isSome = true
      ∧ ((processRow m row).hasMarketSegment).isSome = true
      ∧ (row.tCharger = some "T" →
          (processRow m row).hasBoostSystem = some "Turbocharger")
      ∧ (row.tCharger ≠ some "T" → row.sCharger = some "S" →
          (processRow m row).hasBoostSystem = some "Supercharger")
      ∧ (row.tCharger ≠ some "T" → row.sCharger ≠ some "S" →
          (processRow m row).hasBoostSystem = some "NaturallyAspirated")
      ∧ (row.saveSpend = none →
          (processRow m row).hasMarketSegment = some "StandardMarket") := by
  refine ⟨rfl, rfl, rfl, ?_, ?_, ?_, ?_⟩
  · intro h
    show some (if row.tCharger = some "T" then "Turbocharger"
        else if row.sCharger = some "S" then "Supercharger"
        else "NaturallyAspirated") = some "Turbocharger"
    rw [if_pos h]
  · intro ht hs
    show some (if row.tCharger = some "T" then "Turbocharger"
        else if row.sCharger = some "S" then "Supercharger"
        else "NaturallyAspirated") = some "Supercharger"
    rw [if_neg ht, if_pos hs]
  · intro ht hs
    show some (if row.tCharger = some "T" then "Turbocharger"
        else if row.sCharger = some "S" then "Supercharger"
        else "NaturallyAspirated") = some "NaturallyAspirated"
    rw [if_neg ht, if_neg hs]
  · intro h
    show some (match row.saveSpend with
      | some q => get_market_segment (PFloat.val q)
      | none => "StandardMarket") = some "StandardMarket"
    rw [h]

/-- Witness for `vehicle_defaults_spec` on the all-absent row. -/
theorem vehicle_defaults_spec_witness :
    (processRow emptyMaps emptyRow).hasBoostSystem =
        some "NaturallyAspirated"
      ∧ (processRow emptyMaps emptyRow).hasMarketSegment =
          some "StandardMarket" :=
  ⟨(vehicle_defaults_spec emptyMaps emptyRow).2.2.2.2.2.1
      (by decide) (by decide),
   (vehicle_defaults_spec emptyMaps emptyRow).2.2.2.2.2.2 rfl⟩

/-- The vehicle loop of lines 473-623.  `fails i` says whether the per-row
`try` block (creating the `Vehicle` individual and assigning its
properties) raises on the sample's `i`-th row; the `except` branch logs
the failure and the loop moves on.  The accumulators mirror
`processed_count`, `successful_count` and the list of logged failures. -/
def vehicleLoopAux (fails : Nat → Bool) :
    List Row → Nat → Nat → Nat → List Nat → Nat × Nat × List Nat
  | [], _, processed, successful, logs => (processed, successful, logs)
  | _ :: rest, i, processed, successful, logs =>
      if fails i then
        vehicleLoopAux fails rest (i + 1) (processed + 1) successful
          (logs ++ [i])
      else
        vehicleLoopAux fails rest (i + 1) (processed + 1) (successful + 1)
          logs

/-- Run the vehicle loop from the initial counters
`processed_count = successful_count = 0`. -/
def runVehicleLoop (fails : Nat → Bool) (sample : List Row) :
    Nat × Nat × List Nat :=
  vehicleLoopAux fails sample 0 0 0 []

/-- The sample selection of lines 413-419: all rows when the data fits in
`MAX_VEHICLES`, otherwise the `MAX_VEHICLES`-row sample drawn by
`data.sample` (modelled by the argument `pick`). -/
def selectSample (data : List Row) (pick : List Row) : List Row :=
  if min MAX_VEHICLES data.length < data.length then pick else data

lemma range'_succ_one (i n : Nat) :
    List.range' i (n + 1) = i :: List.range' (i + 1) n := rfl

lemma vehicleLoopAux_spec (fails : Nat → Bool) :
    ∀ (rows : List Row) (i p s : Nat) (logs : List Nat),
      vehicleLoopAux fails rows i p s logs =
        (p + rows.length,
         s + ((List.range' i rows.length).filter
            (fun j => ! fails j)).length,
         logs ++ (List.range' i rows.length).filter (fun j => fails j)) := by
  intro rows
  induction rows with
  | nil => intro i p s logs; simp [vehicleLoopAux]
  | cons r rest ih =>
      intro i p s logs
      rw [List.length_cons, range'_succ_one, List.filter_cons,
        List.filter_cons]
      by_cases hf : fails i
      · rw [show vehicleLoopAux fails (r :: rest) i p s logs =
            vehicleLoopAux fails rest (i + 1) (p + 1) s (logs ++ [i]) by
          simp [vehicleLoopAux, hf]]
        rw [ih]
        simp [hf]
        omega
      · rw [show vehicleLoopAux fails (r :: rest) i p s logs =
            vehicleLoopAux fails rest (i + 1) (p + 1) (s + 1) logs by
          simp [vehicleLoopAux, hf]]
        rw [ih]
        simp [hf]
        omega

/-- C2: over any sample and any pattern of per-row failures, the loop
visits every row (`processed_count` ends at the sample length), counts in
`successful_count` exactly the rows whose `try` block did not raise, and
logs exactly the failing rows, in order, while continuing past each
failure. -/
theorem vehicle_loop_error_handling (fails : Nat → Bool)
    (sample : List Row) :
    (runVehicleLoop fails sample).1 = sample.length
      ∧ (runVehicleLoop fails sample).2.1 =
          ((List.range sample.length).filter (fun j => ! fails j)).length
      ∧ (runVehicleLoop fails sample).2.2 =
          (List.range sample.length).filter (fun j => fails j) := by
  unfold runVehicleLoop
  rw [vehicleLoopAux_spec, List.range_eq_range']
  refine ⟨?_, ?_, ?_⟩ <;> simp

/-- C3: the processed sample has exactly `min MAX_VEHICLES |data|` rows:
with at most `MAX_VEHICLES` rows the single pass covers the whole data
(the sample is the data itself), and with more rows exactly
`MAX_VEHICLES` sampled rows are processed.  The hypothesis records the
pandas guarantee that `data.sample(n)` returns `n` rows. -/
theorem sample_size_spec (fails : Nat → Bool) (data : List Row)
    (pick : List Row) (hpick : pick.length = MAX_VEHICLES) :
    (runVehicleLoop fails (selectSample data pick)).1 =
        min MAX_VEHICLES data.length
      ∧ (data.length ≤ MAX_VEHICLES → selectSample data pick = data)
      ∧ (MAX_VEHICLES < data.length →
          (selectSample data pick).length = MAX_VEHICLES) := by
  have hrun : ∀ rows : List Row,
      (runVehicleLoop fails rows).1 = rows.length := by
    intro rows
    exact (vehicle_loop_error_handling fails rows).1
  unfold selectSample
  by_cases h : min MAX_VEHICLES data.length < data.length
  · rw [if_pos h]
    refine ⟨?_, ?_, ?_⟩
    · rw [hrun, hpick]
      omega
    · intro hle
      omega
    · intro _
      exact hpick
  · rw [if_neg h]
    refine ⟨?_, fun _ => rfl, ?_⟩
    · rw [hrun]
      omega
    · intro hgt
      omega

/-- Witness for `sample_size_spec` on concrete data. -/
theorem sample_size_spec_witness :
    (runVehicleLoop (fun _ => false)
        (selectSample [emptyRow] (List.replicate MAX_VEHICLES emptyRow))).1 =
      min MAX_VEHICLES 1 := by
  have h := (sample_size_spec (fun _ => false) [emptyRow]
    (List.replicate MAX_VEHICLES emptyRow)
    (List.length_replicate MAX_VEHICLES emptyRow)).1
  simpa using h

/-- The observable stages of `populate_ontology`, in source order. -/
inductive Step
  | loadOntology
  | loadCSV
  | extractArtifacts
  | buildMaps
  | createManufacturers
  | createModelYears
  | createVehicles
  | saveOntology
  | runReasoner
  | reportStats
deriving DecidableEq

/-- An externally observable event of a run. -/
inductive Event
  | step (s : Step)
  | readFile (path : String)
  | writeFile (path : String)
  | errorLog (msg : String)
deriving DecidableEq

/-- How `populate_ontology` ends: `sys.exit(1)` reached directly, an
exception escaping to the caller, or normal completion. -/
inductive Outcome
  | exit1
  | raised
  | completed
deriving DecidableEq

/-- Success flags for every fallible step of a run.
`mkdirOk` is `ensure_dir(ARTIFACTS_DIR)` (line 266, un-guarded);
`artifactsOk` is the un-guarded unique-value extraction and statistics
writing of lines 283-300; `modelYearIdsOk` is the un-guarded
`int(year)` of model-year creation (line 401, outside its `try`), which
raises on a non-numeric non-null `Year` cell; `rowPrefixFails i` says
whether the un-guarded per-row preamble of lines 477-487 (the
`int(row_id)` and `int(row["Year"])` conversions, before the per-row
`try`) raises on the sample's `i`-th row; `rowFails` is the guarded
per-row `try` block; `saveOk`, `reasonOk` and `statsOk` are the guarded
save, reasoner and statistics steps. -/
structure Env where
  ontologyOk : Bool
  mkdirOk : Bool
  csvDefaultOk : Bool
  csvAltOk : Bool
  artifactsOk : Bool
  modelYearIdsOk : Bool
  rowPrefixFails : Nat → Bool
  rowFails : Nat → Bool
  saveOk : Bool
  reasonOk : Bool
  statsOk : Bool

/-- Artifact path for one column (lines 291-292):
`column.lower().replace(" ", "_").replace("/", "_")` plus `_values.txt`
under `ARTIFACTS_DIR`.  Both replacements are single-character, so the
chain acts independently on each character; lower-casing never produces
a space or slash, hence the charwise composition below is exact. -/
def artifactFileName (column : String) : String :=
  ARTIFACTS_DIR ++ "/" ++
    String.mk (column.data.map (fun c =>
      if c.toLower = ' ' ∨ c.toLower = '/' then '_' else c.toLower)) ++
    "_values.txt"

/-- Path of the column-statistics file (line 295). -/
def statsFileName : String := ARTIFACTS_DIR ++ "/column_statistics.csv"

/-- Log line of the per-row `except` branch for the `i`-th sample row. -/
def vehicleErrMsg (i : Nat) : String :=
  "ERROR processing vehicle " ++ toString i

/-- Lines 283-663 of `populate_ontology`, entered once the CSV has been
loaded: artifact extraction (un-guarded, so a failure raises), map
construction, individual creation, the vehicle loop, then the guarded
save, reasoner and statistics steps, whose failures are only logged.
Two further un-guarded conversions can raise and escape: the
`int(year)` of model-year creation (line 401, before its `try`) and the
per-row id/year preamble of lines 477-487, which runs before the
per-row `try`; the first sample row whose preamble raises aborts the
loop after the earlier rows have run. -/
def populateAfterLoad (env : Env) (cols : List String) (data : List Row)
    (pick : List Row) (e : List Event) : List Event × Outcome :=
  if env.artifactsOk = false then
    (e ++ [Event.step Step.extractArtifacts], Outcome.raised)
  else
    let e1 := e ++ [Event.step Step.extractArtifacts] ++
      cols.map (fun c => Event.writeFile (artifactFileName c)) ++
      [Event.writeFile statsFileName]
    let e2 := e1 ++ [Event.step Step.buildMaps,
      Event.step Step.createManufacturers]
    if env.modelYearIdsOk = false then
      (e2 ++ [Event.step Step.createModelYears], Outcome.raised)
    else
      let e3 := e2 ++ [Event.step Step.createModelYears]
      let sample := selectSample data pick
      match (List.range sample.length).find? env.rowPrefixFails with
      | some i =>
          (e3 ++ [Event.step Step.createVehicles] ++
            ((runVehicleLoop env.rowFails (sample.take i)).2.2).map
              (fun j => Event.errorLog (vehicleErrMsg j)),
           Outcome.raised)
      | none =>
          let e4 := e3 ++ [Event.step Step.createVehicles] ++
            ((runVehicleLoop env.rowFails sample).2.2).map
              (fun i => Event.errorLog (vehicleErrMsg i))
          let e5 := e4 ++ [Event.step Step.saveOntology] ++
            (if env.saveOk then [Event.writeFile OUTPUT_FILENAME]
              else [Event.errorLog "Error saving populated ontology"])
          let e6 := e5 ++ [Event.step Step.runReasoner] ++
            (if env.reasonOk then []
              else [Event.errorLog "Error during reasoning"])
          let e7 := e6 ++ [Event.step Step.reportStats] ++
            (if env.statsOk then []
              else [Event.errorLog "Error calculating statistics"])
          (e7, Outcome.completed)

/-- `populate_ontology` (lines 237-663): a failed ontology load exits with
code 1; a failed `ensure_dir` raises; the CSV is tried with the default
and then the `;` delimiter, exiting with code 1 only when both fail. -/
def populateRun (env : Env) (cols : List String) (data : List Row)
    (pick : List Row) : List Event × Outcome :=
  let e1 := [Event.step Step.loadOntology,
    Event.readFile ONTOLOGY_FILENAME]
  if env.ontologyOk = false then
    (e1 ++ [Event.errorLog "ERROR loading ontology"], Outcome.exit1)
  else if env.mkdirOk = false then
    (e1, Outcome.raised)
  else
    let e2 := e1 ++ [Event.step Step.loadCSV,
      Event.readFile DATA_FILENAME]
    if env.csvDefaultOk then
      populateAfterLoad env cols data pick e2
    else
      let e3 := e2 ++
        [Event.errorLog "Error loading data.csv with default delimiter",
         Event.readFile DATA_FILENAME]
      if env.csvAltOk then
        populateAfterLoad env cols data pick e3
      else
        (e3 ++
          [Event.errorLog "Error loading data.csv with alternate delimiter"],
         Outcome.exit1)

/-- Project an event onto its pipeline stage, if any. -/
def eventStep : Event → Option Step
  | Event.step s => some s
  | _ => none

/-- Project an event onto the path of a file write, if any. -/
def eventWrite : Event → Option String
  | Event.writeFile p => some p
  | _ => none

/-- Project an event onto the path of a file read, if any. -/
def eventRead : Event → Option String
  | Event.readFile p => some p
  | _ => none

/-- The pipeline stages of a trace, in order. -/
def stepTrace (es : List Event) : List Step := es.filterMap eventStep

/-- The file paths written during a trace, in order. -/
def writesOf (es : List Event) : List String := es.filterMap eventWrite

/-- The file paths read during a trace, in order. -/
def readsOf (es : List Event) : List String := es.filterMap eventRead

lemma stepTrace_artifactWrites (cols : List String) :
    stepTrace (cols.map (fun c => Event.writeFile (artifactFileName c))) =
      [] := by
  induction cols with
  | nil => rfl
  | cons c cs ih =>
      rw [List.map_cons]
      rw [show stepTrace
          (Event.writeFile (artifactFileName c) ::
            cs.map (fun c => Event.writeFile (artifactFileName c))) =
          stepTrace
            (cs.map (fun c => Event.writeFile (artifactFileName c))) from
        rfl]
      exact ih

lemma stepTrace_errLogs (xs : List Nat) :
    stepTrace (xs.map (fun i => Event.errorLog (vehicleErrMsg i))) = [] := by
  induction xs with
  | nil => rfl
  | cons x xs ih =>
      rw [List.map_cons]
      rw [show stepTrace
          (Event.errorLog (vehicleErrMsg x) ::
            xs.map (fun i => Event.errorLog (vehicleErrMsg i))) =
          stepTrace (xs.map (fun i => Event.errorLog (vehicleErrMsg i))) from
        rfl]
      exact ih

lemma writesOf_artifactWrites (cols : List String) :
    writesOf (cols.map (fun c => Event.writeFile (artifactFileName c))) =
      cols.map artifactFileName := by
  induction cols with
  | nil => rfl
  | cons c cs ih =>
      rw [List.map_cons, List.map_cons]
      rw [show writesOf
          (Event.writeFile (artifactFileName c) ::
            cs.map (fun c => Event.writeFile (artifactFileName c))) =
          artifactFileName c ::
            writesOf
              (cs.map (fun c => Event.writeFile (artifactFileName c))) from
        rfl]
      rw [ih]

lemma writesOf_errLogs (xs : List Nat) :
    writesOf (xs.map (fun i => Event.errorLog (vehicleErrMsg i))) = [] := by
  induction xs with
  | nil => rfl
  | cons x xs ih =>
      rw [List.map_cons]
      rw [show writesOf
          (Event.errorLog (vehicleErrMsg x) ::
            xs.map (fun i => Event.errorLog (vehicleErrMsg i))) =
          writesOf (xs.map (fun i => Event.errorLog (vehicleErrMsg i))) from
        rfl]
      exact ih

lemma readsOf_artifactWrites (cols : List String) :
    readsOf (cols.map (fun c => Event.writeFile (artifactFileName c))) =
      [] := by
  induction cols with
  | nil => rfl
  | cons c cs ih =>
      rw [List.map_cons]
      rw [show readsOf
          (Event.writeFile (artifactFileName c) ::
            cs.map (fun c => Event.writeFile (artifactFileName c))) =
          readsOf (cs.map (fun c => Event.writeFile (artifactFileName c))) from
        rfl]
      exact ih

lemma readsOf_errLogs (xs : List Nat) :
    readsOf (xs.map (fun i => Event.errorLog (vehicleErrMsg i))) = [] := by
  induction xs with
  | nil => rfl
  | cons x xs ih =>
      rw [List.map_cons]
      rw [show readsOf
          (Event.errorLog (vehicleErrMsg x) ::
            xs.map (fun i => Event.errorLog (vehicleErrMsg i))) =
          readsOf (xs.map (fun i => Event.errorLog (vehicleErrMsg i))) from
        rfl]
      exact ih

lemma stepTrace_nil : stepTrace [] = [] := rfl

lemma stepTrace_append (a b : List Event) :
    stepTrace (a ++ b) = stepTrace a ++ stepTrace b :=
  List.filterMap_append a b eventStep

lemma stepTrace_cons_step (s : Step) (es : List Event) :
    stepTrace (Event.step s :: es) = s :: stepTrace es := rfl

lemma stepTrace_cons_read (p : String) (es : List Event) :
    stepTrace (Event.readFile p :: es) = stepTrace es := rfl

lemma stepTrace_cons_write (p : String) (es : List Event) :
    stepTrace (Event.writeFile p :: es) = stepTrace es := rfl

lemma stepTrace_cons_log (msg : String) (es : List Event) :
    stepTrace (Event.errorLog msg :: es) = stepTrace es := rfl

lemma writesOf_nil : writesOf [] = [] := rfl

lemma writesOf_append (a b : List Event) :
    writesOf (a ++ b) = writesOf a ++ writesOf b :=
  List.filterMap_append a b eventWrite

lemma writesOf_cons_step (s : Step) (es : List Event) :
    writesOf (Event.step s :: es) = writesOf es := rfl

lemma writesOf_cons_read (p : String) (es : List Event) :
    writesOf (Event.readFile p :: es) = writesOf es := rfl

lemma writesOf_cons_write (p : String) (es : List Event) :
    writesOf (Event.writeFile p :: es) = p :: writesOf es := rfl

lemma writesOf_cons_log (msg : String) (es : List Event) :
    writesOf (Event.errorLog msg :: es) = writesOf es := rfl

lemma readsOf_nil : readsOf [] = [] := rfl

lemma readsOf_append (a b : List Event) :
    readsOf (a ++ b) = readsOf a ++ readsOf b :=
  List.filterMap_append a b eventRead

lemma readsOf_cons_step (s : Step) (es : List Event) :
    readsOf (Event.step s :: es) = readsOf es := rfl

lemma readsOf_cons_read (p : String) (es : List Event) :
    readsOf (Event.readFile p :: es) = p :: readsOf es := rfl

lemma readsOf_cons_write (p : String) (es : List Event) :
    readsOf (Event.writeFile p :: es) = readsOf es := rfl

lemma readsOf_cons_log (msg : String) (es : List Event) :
    readsOf (Event.errorLog msg :: es) = readsOf es := rfl

/-- C4: in any run where the loads succeed and the un-guarded artifact
step does not raise, the pipeline stages occur in exactly the order load
ontology, load CSV, extract artifacts, build maps, create manufacturers,
create model years, create vehicles, save, reason, report; in particular
the populated ontology is saved before the HermiT reasoner runs, whatever
happens in the per-row loop or the guarded save/reason/report steps. -/
theorem pipeline_order_spec (env : Env) (cols : List String)
    (data : List Row) (pick : List Row)
    (h1 : env.ontologyOk = true) (h2 : env.mkdirOk = true)
    (h3 : env.csvDefaultOk = true ∨ env.csvAltOk = true)
    (h4 : env.artifactsOk = true) (h5 : env.modelYearIdsOk = true)
    (h6 : ∀ i, env.rowPrefixFails i = false) :
    stepTrace (populateRun env cols data pick).1 =
        [Step.loadOntology, Step.loadCSV, Step.extractArtifacts,
         Step.buildMaps, Step.createManufacturers, Step.createModelYears,
         Step.createVehicles, Step.saveOntology, Step.runReasoner,
         Step.reportStats]
      ∧ (populateRun env cols data pick).2 = Outcome.completed := by
  have hfind : (List.range (selectSample data pick).length).find?
      env.rowPrefixFails = none :=
    List.find?_eq_none.mpr (fun x _ => by simp [h6 x])
  have hafter : ∀ e : List Event,
      stepTrace (populateAfterLoad env cols data pick e).1 =
        stepTrace e ++
          [Step.extractArtifacts, Step.buildMaps,
           Step.createManufacturers, Step.createModelYears,
           Step.createVehicles, Step.saveOntology, Step.runReasoner,
           Step.reportStats]
        ∧ (populateAfterLoad env cols data pick e).2 =
            Outcome.completed := by
    intro e
    unfold populateAfterLoad
    rw [h4, h5]
    simp only [Bool.true_eq_false, if_false, hfind]
    refine ⟨?_, by trivial⟩
    simp only [stepTrace_append, stepTrace_artifactWrites, stepTrace_errLogs,
      stepTrace_cons_step, stepTrace_cons_write, stepTrace_nil,
      apply_ite stepTrace, stepTrace_cons_log, ite_self, List.append_nil,
      List.nil_append, List.append_assoc, List.cons_append]
  unfold populateRun
  rw [h1, h2]
  simp only [Bool.true_eq_false, if_false]
  by_cases hd : env.csvDefaultOk
  · rw [if_pos hd]
    rcases hafter ([Event.step Step.loadOntology,
      Event.readFile ONTOLOGY_FILENAME] ++
      [Event.step Step.loadCSV, Event.readFile DATA_FILENAME]) with ⟨ha, hb⟩
    refine ⟨?_, hb⟩
    rw [ha]
    simp [stepTrace_append, stepTrace_cons_step, stepTrace_cons_read,
      stepTrace_nil]
  · rw [if_neg hd]
    have halt : env.csvAltOk = true := by
      rcases h3 with h3 | h3
      · exact absurd h3 hd
      · exact h3
    rw [if_pos halt]
    rcases hafter ([Event.step Step.loadOntology,
      Event.readFile ONTOLOGY_FILENAME] ++
      [Event.step Step.loadCSV, Event.readFile DATA_FILENAME] ++
      [Event.errorLog "Error loading data.csv with default delimiter",
       Event.readFile DATA_FILENAME]) with ⟨ha, hb⟩
    refine ⟨?_, hb⟩
    rw [ha]
    simp [stepTrace_append, stepTrace_cons_step, stepTrace_cons_read,
      stepTrace_cons_log, stepTrace_nil]

/-- Environment in which every external interaction succeeds. -/
def envAllOk : Env :=
  { ontologyOk := true, mkdirOk := true, csvDefaultOk := true,
    csvAltOk := true, artifactsOk := true, modelYearIdsOk := true,
    rowPrefixFails := fun _ => false, rowFails := fun _ => false,
    saveOk := true, reasonOk := true, statsOk := true }

/-- Witness for `pipeline_order_spec` in the all-success environment. -/
theorem pipeline_order_spec_witness :
    stepTrace (populateRun envAllOk [] [] []).1 =
        [Step.loadOntology, Step.loadCSV, Step.extractArtifacts,
         Step.buildMaps, Step.createManufacturers, Step.createModelYears,
         Step.createVehicles, Step.saveOntology, Step.runReasoner,
         Step.reportStats]
      ∧ (populateRun envAllOk [] [] []).2 = Outcome.completed :=
  pipeline_order_spec envAllOk [] [] [] rfl rfl (Or.inl rfl) rfl rfl
    (fun _ => rfl)

/-- C7: a run that loads both inputs (with the default delimiter) and
whose un-guarded and save steps succeed reads exactly the fixed input
files `vehicle_ontology.rdf` and `data.csv` and writes exactly one
`artifacts/<column>_values.txt` per CSV column, then
`artifacts/column_statistics.csv`, then `vehicle_ontology_populated.rdf`,
and nothing else; all names are fixed constants, independent of any
command-line input. -/
theorem fixed_filenames_spec (env : Env) (cols : List String)
    (data : List Row) (pick : List Row)
    (h1 : env.ontologyOk = true) (h2 : env.mkdirOk = true)
    (h3 : env.csvDefaultOk = true) (h4 : env.artifactsOk = true)
    (h5 : env.modelYearIdsOk = true)
    (h6 : ∀ i, env.rowPrefixFails i = false)
    (h7 : env.saveOk = true) :
    readsOf (populateRun env cols data pick).1 =
        [ONTOLOGY_FILENAME, DATA_FILENAME]
      ∧ writesOf (populateRun env cols data pick).1 =
          cols.map artifactFileName ++ [statsFileName, OUTPUT_FILENAME]
      ∧ ONTOLOGY_FILENAME = "vehicle_ontology.rdf"
      ∧ DATA_FILENAME = "data.csv"
      ∧ OUTPUT_FILENAME = "vehicle_ontology_populated.rdf"
      ∧ statsFileName = "artifacts/column_statistics.csv" := by
  have hfind : (List.range (selectSample data pick).length).find?
      env.rowPrefixFails = none :=
    List.find?_eq_none.mpr (fun x _ => by simp [h6 x])
  refine ⟨?_, ?_, rfl, rfl, rfl, by decide⟩
  · unfold populateRun
    rw [h1, h2]
    simp only [Bool.true_eq_false, if_false]
    rw [if_pos h3]
    unfold populateAfterLoad
    rw [h4, h5]
    simp only [Bool.true_eq_false, if_false, hfind]
    simp [readsOf_append, readsOf_artifactWrites, readsOf_errLogs,
      readsOf_cons_step, readsOf_cons_read, readsOf_cons_write,
      readsOf_cons_log, readsOf_nil, apply_ite readsOf, ite_self, h7]
  · unfold populateRun
    rw [h1, h2]
    simp only [Bool.true_eq_false, if_false]
    rw [if_pos h3]
    unfold populateAfterLoad
    rw [h4, h5]
    simp only [Bool.true_eq_false, if_false, hfind]
    simp [writesOf_append, writesOf_artifactWrites, writesOf_errLogs,
      writesOf_cons_step, writesOf_cons_read, writesOf_cons_write,
      writesOf_cons_log, writesOf_nil, apply_ite writesOf, ite_self, h7]

/-- Witness for `fixed_filenames_spec` in the all-success environment. -/
theorem fixed_filenames_spec_witness :
    readsOf (populateRun envAllOk [] [] []).1 =
        [ONTOLOGY_FILENAME, DATA_FILENAME]
      ∧ writesOf (populateRun envAllOk [] [] []).1 =
          List.map artifactFileName [] ++ [statsFileName, OUTPUT_FILENAME]
      ∧ ONTOLOGY_FILENAME = "vehicle_ontology.rdf"
      ∧ DATA_FILENAME = "data.csv"
      ∧ OUTPUT_FILENAME = "vehicle_ontology_populated.rdf"
      ∧ statsFileName = "artifacts/column_statistics.csv" :=
  fixed_filenames_spec envAllOk [] [] [] rfl rfl rfl rfl rfl
    (fun _ => rfl) rfl

end Population
